import Mathlib

/-!
Verification development for `mineru/utils/draw_bbox.py`: the coordinate
mapper `cal_canvas_rect`, the block classifier and reading-order builder of
`draw_layout_bbox`, the clean-reconstruction raster stage, the overlay loop,
and the last-span extractor of `draw_span_bbox`.  Python floats are modelled
by `ℚ`, the PDF `/Rotate` entry by `ℤ` (Python `%` on a positive modulus
agrees with `Int.emod`), and exceptions by `Except`.
-/

namespace DrawBBox

/-- Axis-aligned bounding box `[x0, y0, x1, y1]` in page coordinates. -/
structure BBox where
  x0 : ℚ
  y0 : ℚ
  x1 : ℚ
  y1 : ℚ
deriving DecidableEq

/-- Rectangle `[x, y, width, height]` in canvas coordinates, as returned by
`cal_canvas_rect`. -/
structure Rect where
  x : ℚ
  y : ℚ
  w : ℚ
  h : ℚ
deriving DecidableEq

/-- Geometry of one page of the PDF read by `PdfReader`: cropbox width and
height (`page.cropbox[2]`, `page.cropbox[3]`) and the `/Rotate` entry. -/
structure PdfPage where
  width : ℚ
  height : ℚ
  rotate : ℤ
deriving DecidableEq

/-- `cal_canvas_rect(page, bbox)` from `draw_bbox.py` (lines 14-57): maps a
bbox in displayed-page coordinates to a `[x0, y0, width, height]` rectangle
on the unrotated reportlab canvas, by cases on `rotation % 360`. -/
def cal_canvas_rect (page : PdfPage) (bbox : BBox) : Rect :=
  let page_width := page.width
  let page_height := page.height
  let rotation := page.rotate % 360
  let actual_width := if rotation = 90 ∨ rotation = 270 then page_height else page_width
  let actual_height := if rotation = 90 ∨ rotation = 270 then page_width else page_height
  let rect_w := |bbox.x1 - bbox.x0|
  let rect_h := |bbox.y1 - bbox.y0|
  if rotation = 270 then
    { x := actual_height - bbox.y1, y := actual_width - bbox.x1, w := rect_h, h := rect_w }
  else if rotation = 180 then
    { x := page_width - bbox.x1, y := bbox.y0, w := rect_w, h := rect_h }
  else if rotation = 90 then
    { x := bbox.y0, y := bbox.x0, w := rect_h, h := rect_w }
  else
    { x := bbox.x0, y := page_height - bbox.y1, w := rect_w, h := rect_h }

/-- The mapping described by the specification text, written from the spec's
words for comparison with `cal_canvas_rect`: rotation reduced modulo 360;
width/height by absolute difference; the four rotation cases with
"(swapped page height) = page width" and "(swapped page width) = page height"
in the 270 case; `none` on any other rotation value. -/
def spec_canvas_rect (page : PdfPage) (bbox : BBox) : Option Rect :=
  let rotation := page.rotate % 360
  let w := |bbox.x1 - bbox.x0|
  let h := |bbox.y1 - bbox.y0|
  if rotation = 0 then
    some { x := bbox.x0, y := page.height - bbox.y1, w := w, h := h }
  else if rotation = 90 then
    some { x := bbox.y0, y := bbox.x0, w := h, h := w }
  else if rotation = 180 then
    some { x := page.width - bbox.x1, y := bbox.y0, w := w, h := h }
  else if rotation = 270 then
    some { x := page.width - bbox.y1, y := page.height - bbox.x1, w := h, h := w }
  else none

/-- Effective (displayed) page width: the claim's "page width/height swapped
for rotations 90 and 270"; equals `actual_width` in the source. -/
def eff_width (page : PdfPage) : ℚ :=
  if page.rotate % 360 = 90 ∨ page.rotate % 360 = 270 then page.height else page.width

/-- Effective (displayed) page height, swapped for rotations 90 and 270;
equals `actual_height` in the source. -/
def eff_height (page : PdfPage) : ℚ :=
  if page.rotate % 360 = 90 ∨ page.rotate % 360 = 270 then page.width else page.height

/-- The rectangle has positive extent and lies inside `[0, W] × [0, H]`. -/
def rect_in_bounds (r : Rect) (W H : ℚ) : Prop :=
  0 < r.w ∧ 0 < r.h ∧ 0 ≤ r.x ∧ 0 ≤ r.y ∧ r.x + r.w ≤ W ∧ r.y + r.h ≤ H

instance (r : Rect) (W H : ℚ) : Decidable (rect_in_bounds r W H) := by
  unfold rect_in_bounds; infer_instance

/-- The bbox is non-degenerate and lies fully inside `[0, W] × [0, H]`. -/
def bbox_inside (b : BBox) (W H : ℚ) : Prop :=
  0 ≤ b.x0 ∧ b.x0 < b.x1 ∧ b.x1 ≤ W ∧ 0 ≤ b.y0 ∧ b.y0 < b.y1 ∧ b.y1 ≤ H

instance (b : BBox) (W H : ℚ) : Decidable (bbox_inside b W H) := by
  unfold bbox_inside; infer_instance

/-- Equation lemma: `cal_canvas_rect` on a page whose rotation reduces to 0. -/
theorem cal_canvas_rect_rot0 (page : PdfPage) (bbox : BBox)
    (h : page.rotate % 360 = 0) :
    cal_canvas_rect page bbox =
      ⟨bbox.x0, page.height - bbox.y1, |bbox.x1 - bbox.x0|, |bbox.y1 - bbox.y0|⟩ := by
  simp [cal_canvas_rect, h]

/-- Equation lemma: `cal_canvas_rect` on a page whose rotation reduces to 90. -/
theorem cal_canvas_rect_rot90 (page : PdfPage) (bbox : BBox)
    (h : page.rotate % 360 = 90) :
    cal_canvas_rect page bbox =
      ⟨bbox.y0, bbox.x0, |bbox.y1 - bbox.y0|, |bbox.x1 - bbox.x0|⟩ := by
  simp [cal_canvas_rect, h]

/-- Equation lemma: `cal_canvas_rect` on a page whose rotation reduces to 180. -/
theorem cal_canvas_rect_rot180 (page : PdfPage) (bbox : BBox)
    (h : page.rotate % 360 = 180) :
    cal_canvas_rect page bbox =
      ⟨page.width - bbox.x1, bbox.y0, |bbox.x1 - bbox.x0|, |bbox.y1 - bbox.y0|⟩ := by
  simp [cal_canvas_rect, h]

/-- Equation lemma: `cal_canvas_rect` on a page whose rotation reduces to 270
(`actual_height` is the original width, `actual_width` the original height). -/
theorem cal_canvas_rect_rot270 (page : PdfPage) (bbox : BBox)
    (h : page.rotate % 360 = 270) :
    cal_canvas_rect page bbox =
      ⟨page.width - bbox.y1, page.height - bbox.x1,
        |bbox.y1 - bbox.y0|, |bbox.x1 - bbox.x0|⟩ := by
  simp [cal_canvas_rect, h]

/-- C1: after reducing the rotation modulo 360, `cal_canvas_rect` computes
width/height by absolute difference and returns exactly the four
rotation-case formulas of the specification (x' = x0, y' = page_height − y1
for 0; swap and x' = y0, y' = x0 for 90; x' = page_width − x1, y' = y0 for
180; swap and x' = (swapped page height) − y1, y' = (swapped page width) − x1
for 270). -/
theorem cal_canvas_rect_matches_spec (page : PdfPage) (bbox : BBox)
    (h : page.rotate % 360 = 0 ∨ page.rotate % 360 = 90 ∨
         page.rotate % 360 = 180 ∨ page.rotate % 360 = 270) :
    spec_canvas_rect page bbox = some (cal_canvas_rect page bbox) := by
  rcases h with h | h | h | h <;>
    simp [spec_canvas_rect, cal_canvas_rect, h]

/-- Witness for C1 at a concrete input: rotation 450 reduces to 90. -/
theorem cal_canvas_rect_matches_spec_witness :
    spec_canvas_rect ⟨200, 100, 450⟩ ⟨1, 2, 3, 5⟩ =
      some (cal_canvas_rect ⟨200, 100, 450⟩ ⟨1, 2, 3, 5⟩) :=
  cal_canvas_rect_matches_spec ⟨200, 100, 450⟩ ⟨1, 2, 3, 5⟩ (by decide)

/-- C2 counterexample: a non-degenerate bbox fully inside the displayed page
of a rotation-90 page whose mapped rectangle does NOT lie within
`[0, effective_width] × [0, effective_height]` when the effective dimensions
are taken to be the page width/height swapped (the rectangle extends to
x = 150 while the swapped width is 100). -/
theorem mapped_rect_escapes_swapped_bounds :
    bbox_inside ⟨0, 0, 10, 150⟩ (eff_width ⟨200, 100, 90⟩) (eff_height ⟨200, 100, 90⟩) ∧
    ¬ rect_in_bounds (cal_canvas_rect ⟨200, 100, 90⟩ ⟨0, 0, 10, 150⟩)
        (eff_width ⟨200, 100, 90⟩) (eff_height ⟨200, 100, 90⟩) := by
  constructor
  · show (0 : ℚ) ≤ 0 ∧ (0 : ℚ) < 10 ∧ _
    norm_num [eff_width, eff_height]
  · show ¬ rect_in_bounds _ _ _
    norm_num [eff_width, eff_height, cal_canvas_rect, rect_in_bounds]

/-- C2 amended: for each of the four rotations and every non-degenerate bbox
fully inside the displayed page (displayed dimensions swapped for 90/270),
the mapped rectangle has positive width and height and lies within
`[0, page_width] × [0, page_height]` — the UNROTATED page dimensions, which
are the dimensions of the canvas the overlay is drawn on (not the swapped
dimensions). -/
theorem mapped_rect_in_canvas_bounds (page : PdfPage) (bbox : BBox)
    (hrot : page.rotate % 360 = 0 ∨ page.rotate % 360 = 90 ∨
            page.rotate % 360 = 180 ∨ page.rotate % 360 = 270)
    (hin : bbox_inside bbox (eff_width page) (eff_height page)) :
    rect_in_bounds (cal_canvas_rect page bbox) page.width page.height := by
  obtain ⟨h1, h2, h3, h4, h5, h6⟩ := hin
  have hw : |bbox.x1 - bbox.x0| = bbox.x1 - bbox.x0 := abs_of_pos (by linarith)
  have hh : |bbox.y1 - bbox.y0| = bbox.y1 - bbox.y0 := abs_of_pos (by linarith)
  rcases hrot with h | h | h | h
  · simp [eff_width, eff_height, h] at h3 h6
    rw [cal_canvas_rect_rot0 page bbox h]
    unfold rect_in_bounds
    dsimp only
    rw [hw, hh]
    refine ⟨by linarith, by linarith, by linarith, by linarith, by linarith, by linarith⟩
  · simp [eff_width, eff_height, h] at h3 h6
    rw [cal_canvas_rect_rot90 page bbox h]
    unfold rect_in_bounds
    dsimp only
    rw [hw, hh]
    refine ⟨by linarith, by linarith, by linarith, by linarith, by linarith, by linarith⟩
  · simp [eff_width, eff_height, h] at h3 h6
    rw [cal_canvas_rect_rot180 page bbox h]
    unfold rect_in_bounds
    dsimp only
    rw [hw, hh]
    refine ⟨by linarith, by linarith, by linarith, by linarith, by linarith, by linarith⟩
  · simp [eff_width, eff_height, h] at h3 h6
    rw [cal_canvas_rect_rot270 page bbox h]
    unfold rect_in_bounds
    dsimp only
    rw [hw, hh]
    refine ⟨by linarith, by linarith, by linarith, by linarith, by linarith, by linarith⟩

/-- Witness for C2 amended at a concrete input: rotation 90,
page 200 × 100, bbox (0,0,10,80) inside the displayed 100 × 200 page. -/
theorem mapped_rect_in_canvas_bounds_witness :
    rect_in_bounds (cal_canvas_rect ⟨200, 100, 90⟩ ⟨0, 0, 10, 80⟩) 200 100 :=
  mapped_rect_in_canvas_bounds ⟨200, 100, 90⟩ ⟨0, 0, 10, 80⟩ (by decide)
    (by norm_num [bbox_inside, eff_width, eff_height])

/-! ### Block model

`enum_class.BlockType` / `ContentType` are referenced by the source but their
module is outside it; the tag values are distinct strings, modelled here as a
closed inductive with `other n` standing for any string outside the known
set. -/

/-- Block/content type tag. -/
inductive Tag where
  | table
  | table_body
  | table_caption
  | table_footnote
  | image
  | image_body
  | image_caption
  | image_footnote
  | title
  | text
  | interline_equation
  | list
  | index
  | other (n : ℕ)
deriving DecidableEq

/-- A span inside a line: content type, bbox and the `cross_page` flag
(absent flag defaults to `false`, as in `span.get('cross_page', False)`). -/
structure Span where
  type : Tag
  bbox : BBox
  cross_page : Bool := false
deriving DecidableEq

/-- A line: a list of spans. -/
structure Line where
  spans : List Span := []
deriving DecidableEq

/-- A nested (sub-)block of a Table/Image block: its type tag, bbox, and
line/span structure. -/
structure SubBlock where
  type : Tag
  bbox : BBox := ⟨0, 0, 0, 0⟩
  lines : List Line := []
deriving DecidableEq

/-- A top-level block: type tag, bbox, nested sub-blocks (Table/Image) and
lines (text-like blocks). -/
structure Block where
  type : Tag
  bbox : BBox := ⟨0, 0, 0, 0⟩
  blocks : List SubBlock := []
  lines : List Line := []
deriving DecidableEq

/-- One entry of `pdf_info`: the per-page block tree. -/
structure Page where
  discarded_blocks : List Block := []
  para_blocks : List Block := []
  preproc_blocks : List Block := []
deriving DecidableEq

/-! ### Block classifier (`draw_layout_bbox`, lines 127-185) -/

/-- The per-page category buckets built by the first loop of
`draw_layout_bbox`. -/
structure PageBuckets where
  dropped : List BBox := []
  tables : List BBox := []
  tables_body : List BBox := []
  tables_caption : List BBox := []
  tables_footnote : List BBox := []
  imgs : List BBox := []
  imgs_body : List BBox := []
  imgs_caption : List BBox := []
  imgs_footnote : List BBox := []
  titles : List BBox := []
  texts : List BBox := []
  interequations : List BBox := []
  lists : List BBox := []
  indices : List BBox := []
deriving DecidableEq

/-- One step of the inner loop over a Table block's nested blocks
(lines 144-151): bucket by sub-type, silently ignoring any other type. -/
def classify_table_sub (bk : PageBuckets) (nb : SubBlock) : PageBuckets :=
  if nb.type = .table_body then
    { bk with tables_body := bk.tables_body ++ [nb.bbox] }
  else if nb.type = .table_caption then
    { bk with tables_caption := bk.tables_caption ++ [nb.bbox] }
  else if nb.type = .table_footnote then
    { bk with tables_footnote := bk.tables_footnote ++ [nb.bbox] }
  else bk

/-- One step of the inner loop over an Image block's nested blocks
(lines 154-161). -/
def classify_image_sub (bk : PageBuckets) (nb : SubBlock) : PageBuckets :=
  if nb.type = .image_body then
    { bk with imgs_body := bk.imgs_body ++ [nb.bbox] }
  else if nb.type = .image_caption then
    { bk with imgs_caption := bk.imgs_caption ++ [nb.bbox] }
  else if nb.type = .image_footnote then
    { bk with imgs_footnote := bk.imgs_footnote ++ [nb.bbox] }
  else bk

/-- One step of the loop over `page["para_blocks"]` (lines 140-171). -/
def classify_block (bk : PageBuckets) (block : Block) : PageBuckets :=
  if block.type = .table then
    block.blocks.foldl classify_table_sub
      { bk with tables := bk.tables ++ [block.bbox] }
  else if block.type = .image then
    block.blocks.foldl classify_image_sub
      { bk with imgs := bk.imgs ++ [block.bbox] }
  else if block.type = .title then { bk with titles := bk.titles ++ [block.bbox] }
  else if block.type = .text then { bk with texts := bk.texts ++ [block.bbox] }
  else if block.type = .interline_equation then
    { bk with interequations := bk.interequations ++ [block.bbox] }
  else if block.type = .list then { bk with lists := bk.lists ++ [block.bbox] }
  else if block.type = .index then { bk with indices := bk.indices ++ [block.bbox] }
  else bk

/-- The classifier for one page: discarded blocks feed the `dropped` bucket
(lines 137-139), then the para blocks are bucketed. -/
def classify_page (page : Page) : PageBuckets :=
  page.para_blocks.foldl classify_block
    { dropped := page.discarded_blocks.map (fun b => b.bbox) }

/-! ### Reading order (`draw_layout_bbox`, lines 187-212) -/

/-- Python exceptions that the modelled fragments can raise. -/
inductive PyErr where
  | keyError
  | indexError
deriving DecidableEq

/-- `table_type_order = {"table_caption": 1, "table_body": 2,
"table_footnote": 3}` — dictionary lookup, `none` on a missing key. -/
def table_type_order (t : Tag) : Option ℕ :=
  match t with
  | .table_caption => some 1
  | .table_body => some 2
  | .table_footnote => some 3
  | _ => none

/-- The sort key of a table sub-block (total function for the sort relation;
only used where every key exists). -/
def table_key (b : SubBlock) : ℕ :=
  (table_type_order b.type).getD 0

/-- Comparison of table sub-blocks by priority key. -/
def table_le (a b : SubBlock) : Prop :=
  table_key a ≤ table_key b

instance : DecidableRel table_le := fun a b =>
  inferInstanceAs (Decidable (table_key a ≤ table_key b))

instance : IsTotal SubBlock table_le :=
  ⟨fun a b => Nat.le_total (table_key a) (table_key b)⟩

instance : IsTrans SubBlock table_le :=
  ⟨fun _ _ _ => Nat.le_trans⟩

/-- `sorted(block["blocks"], key=lambda x: table_type_order[x["type"]])`
(line 207): Python's `sorted` is a stable sort by the key and applies the key
function to every element, raising `KeyError` when any sub-block's type is
missing from the dictionary.  `List.insertionSort` is a stable sort, so it
agrees with Python's stable sort on the success path. -/
def sorted_table_blocks (blocks : List SubBlock) : Except PyErr (List SubBlock) :=
  if blocks.all (fun b => (table_type_order b.type).isSome) then
    .ok (blocks.insertionSort table_le)
  else .error .keyError

/-- Membership test `block["type"] in [TEXT, TITLE, INTERLINE_EQUATION, LIST,
INDEX]` (lines 193-199). -/
def is_text_like (t : Tag) : Bool :=
  t = .text || t = .title || t = .interline_equation || t = .list || t = .index

/-- The reading-order sequence of one page (`page_block_list`,
lines 190-212): text-like blocks contribute their own bbox, Image blocks all
their sub-block bboxes in input order, Table blocks their sub-block bboxes
sorted by `table_type_order`; every other block type contributes nothing.
The recursion appends each block's contribution in traversal order, exactly
like the source's append loop; an error aborts the whole construction, as the
uncaught `KeyError` does. -/
def page_reading_order : List Block → Except PyErr (List BBox)
  | [] => .ok []
  | block :: rest => do
      let contrib ←
        if is_text_like block.type then .ok [block.bbox]
        else if block.type = .image then
          .ok (block.blocks.map (fun sb => sb.bbox))
        else if block.type = .table then do
          let sorted_blocks ← sorted_table_blocks block.blocks
          .ok (sorted_blocks.map (fun sb => sb.bbox))
        else .ok []
      let others ← page_reading_order rest
      .ok (contrib ++ others)

/-- `layout_bbox_list` over all pages. -/
def layout_bbox_list (pdf_info : List Page) : Except PyErr (List (List BBox)) :=
  pdf_info.mapM (fun page => page_reading_order page.para_blocks)

/-! ### Overlay canvas model (`draw_bbox_without_number`,
`draw_bbox_with_number`, and the overlay loop of `draw_layout_bbox`) -/

/-- One reportlab canvas call.  String labels drawn by `drawString` are the
decimal rendering of `j + 1`; the number itself is recorded. -/
inductive CanvasOp where
  | set_fill_color (r g b a : ℚ)
  | set_stroke_color (r g b : ℚ)
  | draw_rect (x y w h : ℚ) (stroke fill : ℕ)
  | set_font_size (s : ℚ)
  | save_state
  | translate (x y : ℚ)
  | rotate_canvas (deg : ℤ)
  | draw_string (x y : ℚ) (label : ℕ)
  | restore_state
deriving DecidableEq

/-- Is the op a `c.rect` call? -/
def CanvasOp.is_rect : CanvasOp → Bool
  | .draw_rect _ _ _ _ _ _ => true
  | _ => false

/-- The body of `draw_bbox_without_number` (lines 64-72): for EVERY bbox of
the page data, one color call and one `c.rect` call, filled at 30% opacity or
stroked. -/
def draw_rect_ops (page : PdfPage) (page_data : List BBox)
    (rgb : ℕ × ℕ × ℕ) (fill_config : Bool) : List CanvasOp :=
  page_data.flatMap (fun bbox =>
    let rect := cal_canvas_rect page bbox
    if fill_config then
      [.set_fill_color ((rgb.1 : ℚ) / 255) ((rgb.2.1 : ℚ) / 255) ((rgb.2.2 : ℚ) / 255) (3 / 10),
       .draw_rect rect.x rect.y rect.w rect.h 0 1]
    else
      [.set_stroke_color ((rgb.1 : ℚ) / 255) ((rgb.2.1 : ℚ) / 255) ((rgb.2.2 : ℚ) / 255),
       .draw_rect rect.x rect.y rect.w rect.h 1 0])

/-- `draw_bbox_without_number(i, bbox_list, page, c, rgb, fill)` (lines
60-73): `bbox_list[i]` raises `IndexError` when out of range, otherwise every
bbox of that page's list is drawn. -/
def draw_bbox_without_number (i : ℕ) (bbox_list : List (List BBox))
    (page : PdfPage) (rgb : ℕ × ℕ × ℕ) (fill_config : Bool) :
    Except PyErr (List CanvasOp) :=
  match bbox_list[i]? with
  | none => .error .indexError
  | some page_data => .ok (draw_rect_ops page page_data rgb fill_config)

/-- The ops for one numbered bbox in `draw_bbox_with_number` (lines 82-111):
the optional rectangle (the `draw_bbox` parameter of the source, renamed
`draw_box` here to avoid clashing with the function name), then the label at
font size 10, translated to the rotation-determined side of the box and
rotated with the page. -/
def number_label_ops (page : PdfPage) (rgb : ℕ × ℕ × ℕ)
    (fill_config draw_box : Bool) (j : ℕ) (bbox : BBox) : List CanvasOp :=
  let rect := cal_canvas_rect page bbox
  let rotation := page.rotate % 360
  (if draw_box then
    if fill_config then
      [.set_fill_color ((rgb.1 : ℚ) / 255) ((rgb.2.1 : ℚ) / 255) ((rgb.2.2 : ℚ) / 255) (3 / 10),
       .draw_rect rect.x rect.y rect.w rect.h 0 1]
    else
      [.set_stroke_color ((rgb.1 : ℚ) / 255) ((rgb.2.1 : ℚ) / 255) ((rgb.2.2 : ℚ) / 255),
       .draw_rect rect.x rect.y rect.w rect.h 1 0]
   else []) ++
  [.set_fill_color ((rgb.1 : ℚ) / 255) ((rgb.2.1 : ℚ) / 255) ((rgb.2.2 : ℚ) / 255) 1,
   .set_font_size 10, .save_state] ++
  (if rotation = 0 then [.translate (rect.x + rect.w + 2) (rect.y + rect.h - 10)]
   else if rotation = 90 then [.translate (rect.x + 10) (rect.y + rect.h + 2)]
   else if rotation = 180 then [.translate (rect.x - 2) (rect.y + 10)]
   else if rotation = 270 then [.translate (rect.x + rect.w - 10) (rect.y - 2)]
   else []) ++
  [.rotate_canvas rotation, .draw_string 0 0 (j + 1), .restore_state]

/-- `draw_bbox_with_number(i, bbox_list, page, c, rgb, fill, draw_bbox)`
(lines 76-113): `bbox_list[i]` indexed, then one numbered-label op group per
bbox via `enumerate`. -/
def draw_bbox_with_number (i : ℕ) (bbox_list : List (List BBox))
    (page : PdfPage) (rgb : ℕ × ℕ × ℕ) (fill_config draw_box : Bool) :
    Except PyErr (List CanvasOp) :=
  match bbox_list[i]? with
  | none => .error .indexError
  | some page_data =>
      .ok (page_data.enum.flatMap (fun p =>
        number_label_ops page rgb fill_config draw_box p.1 p.2))

/-- Per-page bucket lists for the whole document. -/
def page_buckets_list (pdf_info : List Page) : List PageBuckets :=
  pdf_info.map classify_page

/-- The drawing calls issued for one output page (lines 308-320): the twelve
category buckets in source order — the raw `tables`/`imgs` parent buckets are
never drawn — followed by the numbered reading-order call with
`draw_bbox=False`. -/
def draw_page_ops (i : ℕ) (pdf_info : List Page) (layout : List (List BBox))
    (page : PdfPage) : Except PyErr (List CanvasOp) := do
  let bks := page_buckets_list pdf_info
  let o1 ← draw_bbox_without_number i (bks.map (fun b => b.dropped)) page (158, 158, 158) true
  let o2 ← draw_bbox_without_number i (bks.map (fun b => b.tables_body)) page (204, 204, 0) true
  let o3 ← draw_bbox_without_number i (bks.map (fun b => b.tables_caption)) page (255, 255, 102) true
  let o4 ← draw_bbox_without_number i (bks.map (fun b => b.tables_footnote)) page (229, 255, 204) true
  let o5 ← draw_bbox_without_number i (bks.map (fun b => b.imgs_body)) page (153, 255, 51) true
  let o6 ← draw_bbox_without_number i (bks.map (fun b => b.imgs_caption)) page (102, 178, 255) true
  let o7 ← draw_bbox_without_number i (bks.map (fun b => b.imgs_footnote)) page (255, 178, 102) true
  let o8 ← draw_bbox_without_number i (bks.map (fun b => b.titles)) page (102, 102, 255) true
  let o9 ← draw_bbox_without_number i (bks.map (fun b => b.texts)) page (153, 0, 76) true
  let o10 ← draw_bbox_without_number i (bks.map (fun b => b.interequations)) page (0, 255, 0) true
  let o11 ← draw_bbox_without_number i (bks.map (fun b => b.lists)) page (40, 169, 92) true
  let o12 ← draw_bbox_without_number i (bks.map (fun b => b.indices)) page (40, 169, 92) true
  let o13 ← draw_bbox_with_number i layout page (255, 0, 0) false false
  .ok (o1 ++ o2 ++ o3 ++ o4 ++ o5 ++ o6 ++ o7 ++ o8 ++ o9 ++ o10 ++ o11 ++ o12 ++ o13)

/-- The primary overlay loop (`for i, page in enumerate(pdf_docs.pages)`,
lines 301-334), carrying the running page index. -/
def overlay_go (pdf_info : List Page) (layout : List (List BBox)) :
    ℕ → List PdfPage → Except PyErr (List (List CanvasOp))
  | _, [] => .ok []
  | i, page :: rest => do
      let ops ← draw_page_ops i pdf_info layout page
      let others ← overlay_go pdf_info layout (i + 1) rest
      .ok (ops :: others)

/-- The primary overlay loop started at page index 0. -/
def overlay_loop (pdf_pages : List PdfPage) (pdf_info : List Page)
    (layout : List (List BBox)) : Except PyErr (List (List CanvasOp)) :=
  overlay_go pdf_info layout 0 pdf_pages

/-! ### Raster (pixel) stage: clean reconstruction (`draw_layout_bbox`,
lines 214-295) and the span crop (`draw_span_bbox`, lines 377-424) -/

/-- A rasterized page image (`convert_from_bytes` output): pixel width and
height. -/
structure Img where
  width : ℚ
  height : ℚ
deriving DecidableEq

/-- One `crop`+`paste` (or `crop`+`save`) of a pixel region: the clamped crop
box and the integer paste position `(int(x0), int(y0))`. -/
structure Paste where
  box : BBox
  pos : ℤ × ℤ
deriving DecidableEq

/-- `pil_box`: the bbox scaled elementwise to raster pixels (lines 252-257). -/
def scale_box (bbox : BBox) (scale_w scale_h : ℚ) : BBox :=
  ⟨bbox.x0 * scale_w, bbox.y0 * scale_h, bbox.x1 * scale_w, bbox.y1 * scale_h⟩

/-- `pil_box_safe`: the scaled box clamped to the image bounds
(lines 259-264). -/
def pil_box_safe (img : Img) (pil : BBox) : BBox :=
  ⟨max 0 pil.x0, max 0 pil.y0, min img.width pil.x1, min img.height pil.y1⟩

/-- The crop/paste decision for one bbox (lines 251-269 and 402-421): scale,
clamp, and only crop/paste when the clamped box has positive width and
height.  `Rat.floor` models Python `int()` on the (non-negative) clamped
coordinates. -/
def paste_of (img : Img) (scale_w scale_h : ℚ) (bbox : BBox) : Option Paste :=
  let pil := scale_box bbox scale_w scale_h
  let safe := pil_box_safe img pil
  if safe.x0 < safe.x1 ∧ safe.y0 < safe.y1 then
    some ⟨safe, (⌊safe.x0⌋, ⌊safe.y0⌋)⟩
  else none

/-- `all_bboxes_for_page` (lines 236-248): the eleven sub-part/content
buckets, with `dropped` and the raw `tables`/`imgs` parent buckets
excluded. -/
def all_bboxes_for_page (bk : PageBuckets) : List BBox :=
  bk.tables_body ++ bk.tables_caption ++ bk.tables_footnote ++
  bk.imgs_body ++ bk.imgs_caption ++ bk.imgs_footnote ++
  bk.titles ++ bk.texts ++ bk.interequations ++ bk.lists ++ bk.indices

/-- The pixel regions pasted onto one page's blank canvas (lines 230-269):
per-page scale factors from raster size vs. page geometry, then one optional
paste per bucket bbox. -/
def page_pastes (bk : PageBuckets) (img : Img) (page_w page_h : ℚ) : List Paste :=
  let scale_w := img.width / page_w
  let scale_h := img.height / page_h
  (all_bboxes_for_page bk).filterMap (paste_of img scale_w scale_h)

/-- The per-page loop of the clean-reconstruction stage (lines 219-271),
carrying the running index `i`: a page index at or beyond the raster count is
skipped with a warning; `pdf_reader_for_size.pages[i]` raises `IndexError`
when the reader has fewer pages. -/
def clean_go (images : List Img) (reader_pages : List PdfPage) :
    ℕ → List Page → Except PyErr (List (List Paste))
  | _, [] => .ok []
  | i, page :: rest =>
      if images.length ≤ i then clean_go images reader_pages (i + 1) rest
      else
        match images[i]? with
        | none => .error .indexError
        | some img =>
            match reader_pages[i]? with
            | none => .error .indexError
            | some pdf_page => do
                let pastes := page_pastes (classify_page page) img pdf_page.width pdf_page.height
                let others ← clean_go images reader_pages (i + 1) rest
                .ok (pastes :: others)

/-- The whole clean-reconstruction try-block (lines 214-295): rasterization
(`convert_from_bytes`, whose possible failure is the `convert_result`
argument), the per-page paste loop, and the final `save` (whose possible
failure is the `save_result` argument, consulted only when any cleaned page
exists, per `if cleaned_images:`).  Any error is caught by the
`except` clause: the output is `none` and nothing propagates. -/
def clean_pipeline (pdf_info : List Page) (convert_result : Except PyErr (List Img))
    (reader_pages : List PdfPage) (save_result : Except PyErr Unit) :
    Except PyErr (List (List Paste)) := do
  let images ← convert_result
  let cleaned ← clean_go images reader_pages 0 pdf_info
  let _ ← if cleaned.isEmpty then .ok () else save_result
  .ok cleaned

/-- The `except` clause: an exception value becomes an absent result. -/
def catch_to_option {α : Type} : Except PyErr α → Option α
  | .ok x => some x
  | .error _ => none

def clean_output (pdf_info : List Page) (convert_result : Except PyErr (List Img))
    (reader_pages : List PdfPage) (save_result : Except PyErr Unit) :
    Option (List (List Paste)) :=
  catch_to_option (clean_pipeline pdf_info convert_result reader_pages save_result)

/-- The whole `draw_layout_bbox` (lines 116-337): the reading-order lists are
built before the try-block, so their `KeyError` aborts everything; otherwise
the clean reconstruction is best-effort and the primary overlay loop runs
regardless of its outcome. -/
def draw_layout_bbox_model (pdf_info : List Page)
    (convert_result : Except PyErr (List Img)) (reader_pages : List PdfPage)
    (save_result : Except PyErr Unit) :
    Option (List (List Paste)) × Except PyErr (List (List CanvasOp)) :=
  match layout_bbox_list pdf_info with
  | .error e => (none, .error e)
  | .ok layout =>
      (clean_output pdf_info convert_result reader_pages save_result,
       overlay_loop reader_pages pdf_info layout)

/-! ### Span extractor (`draw_span_bbox`, lines 340-424) -/

/-- One span of the scan (lines 356-361 and 365-370): a Text-typed span's
bbox goes to the carry when `cross_page` is set, to the page's own collection
otherwise; other content types are ignored. -/
def span_step (acc : List BBox × List BBox) (span : Span) : List BBox × List BBox :=
  if span.type = .text then
    if span.cross_page then (acc.1, acc.2 ++ [span.bbox])
    else (acc.1 ++ [span.bbox], acc.2)
  else acc

/-- Scan of all lines of one container (block or sub-block). -/
def lines_scan (acc : List BBox × List BBox) (lines : List Line) :
    List BBox × List BBox :=
  lines.foldl (fun a line => line.spans.foldl span_step a) acc

/-- The scan step for one block (lines 350-370): a text-like block
contributes its lines' spans, an Image/Table block the lines of all its
sub-blocks, every other block type nothing. -/
def block_scan_step (a : List BBox × List BBox) (block : Block) :
    List BBox × List BBox :=
  if is_text_like block.type then lines_scan a block.lines
  else if block.type = .image ∨ block.type = .table then
    block.blocks.foldl (fun a2 sub => lines_scan a2 sub.lines) a
  else a

/-- The scan of one page's `preproc_blocks` (lines 350-370) from a given
accumulator `(collection, carry)`. -/
def page_span_scan_from (acc : List BBox × List BBox) (page : Page) :
    List BBox × List BBox :=
  page.preproc_blocks.foldl block_scan_step acc

/-- The scan of one page starting empty: `(own spans, cross spans)`. -/
def page_span_scan (page : Page) : List BBox × List BBox :=
  page_span_scan_from ([], []) page

/-- The page loop of `draw_span_bbox` (lines 344-375): the carry from the
previous page seeds the collection, the page is scanned, and the collection's
last element (or `none`) is recorded. -/
def last_span_go : List Page → List BBox → List (Option BBox)
  | [], _ => []
  | page :: rest, carry =>
      let s := page_span_scan_from (carry, []) page
      s.1.getLast? :: last_span_go rest s.2

/-- `last_span_bboxes` for the whole document (initial carry empty). -/
def last_span_bboxes (pdf_info : List Page) : List (Option BBox) :=
  last_span_go pdf_info []

/-- The raster part of `draw_span_bbox` (lines 385-421): `for i in
range(len(pdf_info))`, skipping indices beyond the raster count and pages
without a recorded last span; `pages[i]` may raise `IndexError`; the crop is
saved only when the clamped box is non-degenerate. -/
def span_raster_go (last_spans : List (Option BBox)) (images : List Img)
    (reader_pages : List PdfPage) : List ℕ → Except PyErr (List (ℕ × Paste))
  | [] => .ok []
  | i :: rest =>
      if images.length ≤ i then span_raster_go last_spans images reader_pages rest
      else
        match last_spans[i]? with
        | none => span_raster_go last_spans images reader_pages rest
        | some none => span_raster_go last_spans images reader_pages rest
        | some (some bbox) =>
            match images[i]? with
            | none => .error .indexError
            | some img =>
                match reader_pages[i]? with
                | none => .error .indexError
                | some pg => do
                    let others ← span_raster_go last_spans images reader_pages rest
                    let scale_w := img.width / pg.width
                    let scale_h := img.height / pg.height
                    match paste_of img scale_w scale_h bbox with
                    | some p => .ok ((i, p) :: others)
                    | none => .ok others

/-- The whole `draw_span_bbox`: the pure first loop, then the raster stage
wrapped in try/except (`none` on any failure). -/
def draw_span_bbox_model (pdf_info : List Page)
    (convert_result : Except PyErr (List Img)) (reader_pages : List PdfPage) :
    List (Option BBox) × Option (List (ℕ × Paste)) :=
  let last := last_span_bboxes pdf_info
  let out := catch_to_option (do
    let images ← convert_result
    span_raster_go last images reader_pages (List.range pdf_info.length))
  (last, out)

/-! ### Helper lemmas on `page_reading_order` -/

theorem except_map_ok {α β : Type} (e : Except PyErr α) (f : α → β) (y : β) :
    e.map f = .ok y ↔ ∃ x, e = .ok x ∧ y = f x := by
  cases e <;> simp [Except.map, eq_comm]

theorem page_reading_order_cons_text (blk : Block) (rest : List Block)
    (h : is_text_like blk.type) :
    page_reading_order (blk :: rest) =
      (page_reading_order rest).map (fun l => blk.bbox :: l) := by
  cases hrest : page_reading_order rest <;>
    simp [page_reading_order, h, hrest, Except.bind, Except.map] <;> rfl

theorem page_reading_order_cons_image (blk : Block) (rest : List Block)
    (h : blk.type = .image) :
    page_reading_order (blk :: rest) =
      (page_reading_order rest).map (fun l => blk.blocks.map (fun sb => sb.bbox) ++ l) := by
  cases hrest : page_reading_order rest <;>
    simp [page_reading_order, h, hrest, Except.bind, Except.map, is_text_like] <;> rfl

theorem page_reading_order_cons_table_ok (blk : Block) (rest : List Block)
    (s : List SubBlock) (h : blk.type = .table)
    (hs : sorted_table_blocks blk.blocks = .ok s) :
    page_reading_order (blk :: rest) =
      (page_reading_order rest).map (fun l => s.map (fun sb => sb.bbox) ++ l) := by
  cases hrest : page_reading_order rest <;>
    simp [page_reading_order, h, hs, hrest, Except.bind, Except.map, is_text_like] <;> rfl

theorem page_reading_order_cons_table_err (blk : Block) (rest : List Block)
    (e : PyErr) (h : blk.type = .table)
    (hs : sorted_table_blocks blk.blocks = .error e) :
    page_reading_order (blk :: rest) = .error e := by
  simp [page_reading_order, h, hs, Except.bind, is_text_like]
  rfl

theorem page_reading_order_cons_skip (blk : Block) (rest : List Block)
    (h1 : is_text_like blk.type = false) (h2 : blk.type ≠ .image)
    (h3 : blk.type ≠ .table) :
    page_reading_order (blk :: rest) = page_reading_order rest := by
  cases hrest : page_reading_order rest <;>
    simp [page_reading_order, h1, h2, h3, hrest, Except.bind] <;> rfl

theorem sorted_table_blocks_ok (blocks : List SubBlock)
    (h : ∀ sb ∈ blocks, (table_type_order sb.type).isSome) :
    sorted_table_blocks blocks = .ok (blocks.insertionSort table_le) := by
  have : blocks.all (fun b => (table_type_order b.type).isSome) = true :=
    List.all_eq_true.mpr h
  simp [sorted_table_blocks, this]

/-- C3: the reading-order sequence re-orders a Table block's sub-block bboxes
by the fixed priority caption=1, body=2, footnote=3 regardless of input order
(in particular [footnote, body, caption] yields [caption, body, footnote] in
front of the remaining traversal), lists an Image block's sub-block bboxes in
input order, lists every Text/Title/InterlineEquation/List/Index block's own
bbox in traversal order, and every entry of the sequence originates from a
text-like para block's own bbox or a Table/Image sub-block's bbox — never
from a discarded block and never from a raw Table/Image parent bbox. -/
theorem reading_order_construction :
    (∀ (tb : Block) (rest : List Block) (c b f : SubBlock),
        tb.type = .table → c.type = .table_caption → b.type = .table_body →
        f.type = .table_footnote → tb.blocks = [f, b, c] →
        page_reading_order (tb :: rest) =
          (page_reading_order rest).map (fun l => c.bbox :: b.bbox :: f.bbox :: l)) ∧
    (∀ (tb : Block) (rest : List Block),
        tb.type = .table →
        (∀ sb ∈ tb.blocks, (table_type_order sb.type).isSome) →
        ∃ s : List SubBlock, s.Perm tb.blocks ∧ s.Sorted table_le ∧
          page_reading_order (tb :: rest) =
            (page_reading_order rest).map (fun l => s.map (fun sb => sb.bbox) ++ l)) ∧
    (∀ (ib : Block) (rest : List Block), ib.type = .image →
        page_reading_order (ib :: rest) =
          (page_reading_order rest).map (fun l => ib.blocks.map (fun sb => sb.bbox) ++ l)) ∧
    (∀ (blk : Block) (rest : List Block), is_text_like blk.type →
        page_reading_order (blk :: rest) =
          (page_reading_order rest).map (fun l => blk.bbox :: l)) ∧
    (∀ (blocks : List Block) (res : List BBox),
        page_reading_order blocks = .ok res →
        ∀ x ∈ res, ∃ blk ∈ blocks,
          (is_text_like blk.type ∧ x = blk.bbox) ∨
          ((blk.type = .image ∨ blk.type = .table) ∧ ∃ sb ∈ blk.blocks, x = sb.bbox)) := by
  refine ⟨?_, ?_, ?_, ?_, ?_⟩
  · intro tb rest c b f ht hc hb hf hblocks
    have hall : ∀ sb ∈ tb.blocks, (table_type_order sb.type).isSome := by
      rw [hblocks]
      intro sb hsb
      simp only [List.mem_cons, List.not_mem_nil, or_false] at hsb
      rcases hsb with rfl | rfl | rfl <;> simp [table_type_order, hc, hb, hf]
    have hsorted : tb.blocks.insertionSort table_le = [c, b, f] := by
      rw [hblocks]
      simp [List.insertionSort, List.orderedInsert, table_le, table_key,
        table_type_order, hc, hb, hf]
    rw [page_reading_order_cons_table_ok tb rest _ ht (sorted_table_blocks_ok _ hall),
      hsorted]
    rfl
  · intro tb rest ht hall
    refine ⟨tb.blocks.insertionSort table_le, List.perm_insertionSort _ _,
      List.sorted_insertionSort _ _, ?_⟩
    exact page_reading_order_cons_table_ok tb rest _ ht (sorted_table_blocks_ok _ hall)
  · exact fun ib rest h => page_reading_order_cons_image ib rest h
  · exact fun blk rest h => page_reading_order_cons_text blk rest h
  · intro blocks
    induction blocks with
    | nil =>
        intro res hres x hx
        simp [page_reading_order] at hres
        subst hres
        simp at hx
    | cons blk rest ih =>
        intro res hres x hx
        by_cases htext : is_text_like blk.type
        · rw [page_reading_order_cons_text blk rest htext] at hres
          obtain ⟨res', hrest, hres'⟩ := (except_map_ok _ _ _).mp hres
          subst hres'
          rcases List.mem_cons.mp hx with hx | hx
          · exact ⟨blk, List.mem_cons_self _ _, Or.inl ⟨htext, hx⟩⟩
          · obtain ⟨blk', hblk', hprop⟩ := ih res' hrest x hx
            exact ⟨blk', List.mem_cons_of_mem _ hblk', hprop⟩
        · by_cases himg : blk.type = .image
          · rw [page_reading_order_cons_image blk rest himg] at hres
            obtain ⟨res', hrest, hres'⟩ := (except_map_ok _ _ _).mp hres
            subst hres'
            rcases List.mem_append.mp hx with hx | hx
            · obtain ⟨sb, hsb, hsb'⟩ := List.mem_map.mp hx
              exact ⟨blk, List.mem_cons_self _ _,
                Or.inr ⟨Or.inl himg, sb, hsb, hsb'.symm⟩⟩
            · obtain ⟨blk', hblk', hprop⟩ := ih res' hrest x hx
              exact ⟨blk', List.mem_cons_of_mem _ hblk', hprop⟩
          · by_cases htab : blk.type = .table
            · cases hs : sorted_table_blocks blk.blocks with
              | error e =>
                  rw [page_reading_order_cons_table_err blk rest e htab hs] at hres
                  exact absurd hres (by simp)
              | ok s =>
                  rw [page_reading_order_cons_table_ok blk rest s htab hs] at hres
                  obtain ⟨res', hrest, hres'⟩ := (except_map_ok _ _ _).mp hres
                  subst hres'
                  have hmem_s : ∀ sb ∈ s, sb ∈ blk.blocks := by
                    intro sb hsb
                    unfold sorted_table_blocks at hs
                    by_cases hall : blk.blocks.all (fun b => (table_type_order b.type).isSome)
                    · simp [hall] at hs
                      subst hs
                      exact (List.mem_insertionSort table_le).mp hsb
                    · simp [hall] at hs
                  rcases List.mem_append.mp hx with hx | hx
                  · obtain ⟨sb, hsb, hsb'⟩ := List.mem_map.mp hx
                    exact ⟨blk, List.mem_cons_self _ _,
                      Or.inr ⟨Or.inr htab, sb, hmem_s sb hsb, hsb'.symm⟩⟩
                  · obtain ⟨blk', hblk', hprop⟩ := ih res' hrest x hx
                    exact ⟨blk', List.mem_cons_of_mem _ hblk', hprop⟩
            · rw [page_reading_order_cons_skip blk rest
                (Bool.eq_false_iff.mpr htext) himg htab] at hres
              obtain ⟨blk', hblk', hprop⟩ := ih res hres x hx
              exact ⟨blk', List.mem_cons_of_mem _ hblk', hprop⟩

/-- Witness for C3: the first conjunct applied to a concrete table whose
sub-blocks arrive in order [footnote, body, caption]. -/
theorem reading_order_construction_witness :
    page_reading_order
        [⟨.table, ⟨0, 0, 9, 9⟩,
          [⟨.table_footnote, ⟨0, 7, 9, 9⟩, []⟩,
           ⟨.table_body, ⟨0, 2, 9, 7⟩, []⟩,
           ⟨.table_caption, ⟨0, 0, 9, 2⟩, []⟩], []⟩] =
      .ok [⟨0, 0, 9, 2⟩, ⟨0, 2, 9, 7⟩, ⟨0, 7, 9, 9⟩] := by
  have h := reading_order_construction.1
    ⟨.table, ⟨0, 0, 9, 9⟩,
      [⟨.table_footnote, ⟨0, 7, 9, 9⟩, []⟩,
       ⟨.table_body, ⟨0, 2, 9, 7⟩, []⟩,
       ⟨.table_caption, ⟨0, 0, 9, 2⟩, []⟩], []⟩
    [] ⟨.table_caption, ⟨0, 0, 9, 2⟩, []⟩ ⟨.table_body, ⟨0, 2, 9, 7⟩, []⟩
    ⟨.table_footnote, ⟨0, 7, 9, 9⟩, []⟩ rfl rfl rfl rfl rfl
  simpa [page_reading_order, Except.map] using h

/-! ### Unknown sub-block types (C6) -/

theorem classify_table_sub_unknown (bk : PageBuckets) (sb : SubBlock)
    (h : table_type_order sb.type = none) : classify_table_sub bk sb = bk := by
  have h1 : sb.type ≠ .table_body := by
    intro e; rw [e] at h; simp [table_type_order] at h
  have h2 : sb.type ≠ .table_caption := by
    intro e; rw [e] at h; simp [table_type_order] at h
  have h3 : sb.type ≠ .table_footnote := by
    intro e; rw [e] at h; simp [table_type_order] at h
  simp [classify_table_sub, h1, h2, h3]

theorem classify_image_sub_unknown (bk : PageBuckets) (sb : SubBlock)
    (h1 : sb.type ≠ .image_body) (h2 : sb.type ≠ .image_caption)
    (h3 : sb.type ≠ .image_footnote) : classify_image_sub bk sb = bk := by
  simp [classify_image_sub, h1, h2, h3]

/-- C6 counterexample: an Image sub-block of unknown type DOES contribute its
bbox to the reading-order sequence, and a Table sub-block of unknown type
raises a `KeyError` in the reading-order construction (`sorted` with the
`table_type_order[...]` key) instead of being silently skipped. -/
theorem unknown_sub_reaches_reading_order :
    page_reading_order
        [⟨.image, ⟨0, 0, 9, 9⟩, [⟨.other 0, ⟨1, 1, 2, 2⟩, []⟩], []⟩] =
      .ok [⟨1, 1, 2, 2⟩] ∧
    page_reading_order
        [⟨.table, ⟨0, 0, 9, 9⟩, [⟨.other 0, ⟨1, 1, 2, 2⟩, []⟩], []⟩] =
      .error .keyError := by
  exact ⟨rfl, rfl⟩

/-- C6 amended: in the bucket classification, a Table or Image sub-block
whose type matches no known sub-category is silently skipped — it lands in no
bucket and raises nothing.  In the reading-order construction, however, an
Image block's sub-blocks are appended REGARDLESS of their type, and a Table
sub-block with an unknown type raises a `KeyError` that aborts the
construction. -/
theorem unknown_sub_policy :
    (∀ (bk : PageBuckets) (sb : SubBlock),
        table_type_order sb.type = none → classify_table_sub bk sb = bk) ∧
    (∀ (bk : PageBuckets) (sb : SubBlock),
        sb.type ≠ .image_body → sb.type ≠ .image_caption →
        sb.type ≠ .image_footnote → classify_image_sub bk sb = bk) ∧
    (∀ (bk : PageBuckets) (blk : Block) (sb : SubBlock) (l1 l2 : List SubBlock),
        blk.type = .table → table_type_order sb.type = none →
        blk.blocks = l1 ++ sb :: l2 →
        classify_block bk blk = classify_block bk { blk with blocks := l1 ++ l2 }) ∧
    (∀ (bk : PageBuckets) (blk : Block) (sb : SubBlock) (l1 l2 : List SubBlock),
        blk.type = .image → sb.type ≠ .image_body → sb.type ≠ .image_caption →
        sb.type ≠ .image_footnote → blk.blocks = l1 ++ sb :: l2 →
        classify_block bk blk = classify_block bk { blk with blocks := l1 ++ l2 }) ∧
    (∀ (ib : Block) (rest : List Block), ib.type = .image →
        page_reading_order (ib :: rest) =
          (page_reading_order rest).map (fun l => ib.blocks.map (fun sb => sb.bbox) ++ l)) ∧
    (∀ (tb : Block) (rest : List Block) (sb : SubBlock),
        tb.type = .table → sb ∈ tb.blocks → table_type_order sb.type = none →
        page_reading_order (tb :: rest) = .error .keyError) := by
  refine ⟨classify_table_sub_unknown, classify_image_sub_unknown, ?_, ?_, ?_, ?_⟩
  · intro bk blk sb l1 l2 ht h hbl
    simp only [classify_block, ht, if_pos]
    rw [hbl, List.foldl_append, List.foldl_append, List.foldl_cons,
      classify_table_sub_unknown _ sb h]
  · intro bk blk sb l1 l2 hi h1 h2 h3 hbl
    simp only [classify_block, hi, reduceCtorEq, if_false]
    rw [hbl, List.foldl_append, List.foldl_append, List.foldl_cons,
      classify_image_sub_unknown _ sb h1 h2 h3]
  · exact fun ib rest h => page_reading_order_cons_image ib rest h
  · intro tb rest sb ht hmem h
    have hall : tb.blocks.all (fun b => (table_type_order b.type).isSome) = false := by
      rw [Bool.eq_false_iff]
      intro hc
      have := List.all_eq_true.mp hc sb hmem
      rw [h] at this
      simp at this
    have hs : sorted_table_blocks tb.blocks = .error .keyError := by
      simp [sorted_table_blocks, hall]
    exact page_reading_order_cons_table_err tb rest _ ht hs

/-- Witness for C6 amended, at concrete inputs. -/
theorem unknown_sub_policy_witness :
    classify_table_sub {} ⟨.other 7, ⟨0, 0, 1, 1⟩, []⟩ = {} ∧
    page_reading_order [⟨.table, ⟨0, 0, 4, 4⟩, [⟨.other 7, ⟨0, 0, 1, 1⟩, []⟩], []⟩] =
      .error .keyError :=
  ⟨unknown_sub_policy.1 {} ⟨.other 7, ⟨0, 0, 1, 1⟩, []⟩ rfl,
   unknown_sub_policy.2.2.2.2.2 ⟨.table, ⟨0, 0, 4, 4⟩, [⟨.other 7, ⟨0, 0, 1, 1⟩, []⟩], []⟩
     [] ⟨.other 7, ⟨0, 0, 1, 1⟩, []⟩ rfl (List.mem_singleton.mpr rfl) rfl⟩

/-! ### Degenerate boxes (C5) -/

/-- C5 counterexample: a degenerate bbox (x1 = x0) still causes a `c.rect`
drawing call on the overlay canvas — `draw_bbox_without_number` issues a rect
for EVERY bbox of the page data, with width `|x1 − x0| = 0`. -/
theorem degenerate_box_rect_call :
    (⟨5, 5, 5, 9⟩ : BBox).x1 ≤ (⟨5, 5, 5, 9⟩ : BBox).x0 ∧
    CanvasOp.draw_rect 5 91 0 4 0 1 ∈
      draw_rect_ops ⟨100, 100, 0⟩ [⟨5, 5, 5, 9⟩] (158, 158, 158) true := by
  refine ⟨le_refl _, ?_⟩
  have : cal_canvas_rect ⟨100, 100, 0⟩ ⟨5, 5, 5, 9⟩ = ⟨5, 91, 0, 4⟩ := by
    rw [cal_canvas_rect_rot0 _ _ (by decide)]
    norm_num
  simp [draw_rect_ops, this]

/-- C5 amended: in the raster stages a degenerate bbox (x1 ≤ x0 or y1 ≤ y0)
is never cropped or pasted — after scaling by positive factors and clamping
to the image bounds, the box has no positive extent and the crop/paste is
skipped; the overlay vector path, however, issues exactly one rect drawing
call per bbox, degenerate or not. -/
theorem degenerate_box_policy :
    (∀ (img : Img) (scale_w scale_h : ℚ) (bbox : BBox),
        0 < scale_w → 0 < scale_h →
        (bbox.x1 ≤ bbox.x0 ∨ bbox.y1 ≤ bbox.y0) →
        paste_of img scale_w scale_h bbox = none) ∧
    (∀ (page : PdfPage) (page_data : List BBox) (rgb : ℕ × ℕ × ℕ)
        (fill_config : Bool),
        ((draw_rect_ops page page_data rgb fill_config).filter
            CanvasOp.is_rect).length = page_data.length) := by
  constructor
  · intro img scale_w scale_h bbox hsw hsh hdeg
    simp only [paste_of, scale_box, pil_box_safe]
    rw [if_neg]
    rintro ⟨hx, hy⟩
    rcases hdeg with hd | hd
    · have h1 : bbox.x1 * scale_w ≤ bbox.x0 * scale_w :=
        mul_le_mul_of_nonneg_right hd (le_of_lt hsw)
      have h2 : min img.width (bbox.x1 * scale_w) ≤ bbox.x1 * scale_w :=
        min_le_right _ _
      have h3 : bbox.x0 * scale_w ≤ max 0 (bbox.x0 * scale_w) :=
        le_max_right _ _
      linarith
    · have h1 : bbox.y1 * scale_h ≤ bbox.y0 * scale_h :=
        mul_le_mul_of_nonneg_right hd (le_of_lt hsh)
      have h2 : min img.height (bbox.y1 * scale_h) ≤ bbox.y1 * scale_h :=
        min_le_right _ _
      have h3 : bbox.y0 * scale_h ≤ max 0 (bbox.y0 * scale_h) :=
        le_max_right _ _
      linarith
  · intro page page_data rgb fill_config
    induction page_data with
    | nil => simp [draw_rect_ops]
    | cons b rest ih =>
        cases fill_config <;>
          simp [draw_rect_ops, CanvasOp.is_rect, List.filter_append] at ih ⊢ <;>
          omega

/-- Witness for C5 amended: a degenerate box at positive scale is not
pasted. -/
theorem degenerate_box_policy_witness :
    paste_of ⟨200, 200⟩ 2 2 ⟨5, 5, 5, 9⟩ = none :=
  degenerate_box_policy.1 ⟨200, 200⟩ 2 2 ⟨5, 5, 5, 9⟩ (by norm_num) (by norm_num)
    (Or.inl (le_refl _))

/-! ### Reduction lemmas for `draw_page_ops` -/

theorem draw_page_ops_eq (i : ℕ) (pdf_info : List Page) (layout : List (List BBox))
    (page : PdfPage) (bk : PageBuckets) (pl : List BBox)
    (hb : (page_buckets_list pdf_info)[i]? = some bk)
    (hl : layout[i]? = some pl) :
    draw_page_ops i pdf_info layout page =
      .ok (draw_rect_ops page bk.dropped (158, 158, 158) true ++
        draw_rect_ops page bk.tables_body (204, 204, 0) true ++
        draw_rect_ops page bk.tables_caption (255, 255, 102) true ++
        draw_rect_ops page bk.tables_footnote (229, 255, 204) true ++
        draw_rect_ops page bk.imgs_body (153, 255, 51) true ++
        draw_rect_ops page bk.imgs_caption (102, 178, 255) true ++
        draw_rect_ops page bk.imgs_footnote (255, 178, 102) true ++
        draw_rect_ops page bk.titles (102, 102, 255) true ++
        draw_rect_ops page bk.texts (153, 0, 76) true ++
        draw_rect_ops page bk.interequations (0, 255, 0) true ++
        draw_rect_ops page bk.lists (40, 169, 92) true ++
        draw_rect_ops page bk.indices (40, 169, 92) true ++
        pl.enum.flatMap (fun p =>
          number_label_ops page (255, 0, 0) false false p.1 p.2)) := by
  simp only [draw_page_ops, draw_bbox_without_number, draw_bbox_with_number,
    List.getElem?_map, hb, hl, Option.map_some']
  rfl

theorem draw_page_ops_err_buckets (i : ℕ) (pdf_info : List Page)
    (layout : List (List BBox)) (page : PdfPage)
    (hb : (page_buckets_list pdf_info)[i]? = none) :
    draw_page_ops i pdf_info layout page = .error .indexError := by
  simp only [draw_page_ops, draw_bbox_without_number, List.getElem?_map, hb,
    Option.map_none']
  rfl

theorem draw_page_ops_err_layout (i : ℕ) (pdf_info : List Page)
    (layout : List (List BBox)) (page : PdfPage) (bk : PageBuckets)
    (hb : (page_buckets_list pdf_info)[i]? = some bk)
    (hl : layout[i]? = none) :
    draw_page_ops i pdf_info layout page = .error .indexError := by
  simp only [draw_page_ops, draw_bbox_without_number, draw_bbox_with_number,
    List.getElem?_map, hb, hl, Option.map_some']
  rfl

/-! ### Reading-order numbering (C7) -/

/-- C7 counterexample: the reading-order call at line 320 passes
`draw_bbox=False`, so NO box outline is drawn for the reading-order
sequence — for a one-box sequence the emitted ops contain zero rect calls,
only the numbered label (here the string "1"). -/
theorem reading_order_numbers_no_outline :
    (draw_bbox_with_number 0 [[⟨10, 10, 20, 20⟩]] ⟨100, 100, 0⟩ (255, 0, 0)
        false false).map
        (fun ops => ((ops.filter CanvasOp.is_rect).length,
          ops.count (CanvasOp.draw_string 0 0 1))) = .ok (0, 1) := by
  rfl

/-- C7 amended: on every output page the reading-order sequence is processed
last (its ops are the final segment of the page's op list), but with
`draw_bbox=False` no box outline is drawn for it: each entry only gets its
1-based label at fixed font size 10, placed just outside the mapped box on
the rotation-determined side (right of the box for rotation 0, above for 90,
left for 180, below for 270, with a fixed offset of 2). -/
theorem reading_order_numbering :
    (∀ (i : ℕ) (pdf_info : List Page) (layout : List (List BBox))
        (page : PdfPage) (ops : List CanvasOp),
        draw_page_ops i pdf_info layout page = .ok ops →
        ∃ bucket_ops pl, layout[i]? = some pl ∧
          ops = bucket_ops ++ pl.enum.flatMap (fun p =>
            number_label_ops page (255, 0, 0) false false p.1 p.2)) ∧
    (∀ (page : PdfPage) (rgb : ℕ × ℕ × ℕ) (j : ℕ) (bbox : BBox),
        (number_label_ops page rgb false false j bbox).filter CanvasOp.is_rect = []) ∧
    (∀ (page : PdfPage) (rgb : ℕ × ℕ × ℕ) (j : ℕ) (bbox : BBox),
        page.rotate % 360 = 0 →
        number_label_ops page rgb false false j bbox =
          [.set_fill_color ((rgb.1 : ℚ) / 255) ((rgb.2.1 : ℚ) / 255) ((rgb.2.2 : ℚ) / 255) 1,
           .set_font_size 10, .save_state,
           .translate ((cal_canvas_rect page bbox).x + (cal_canvas_rect page bbox).w + 2)
             ((cal_canvas_rect page bbox).y + (cal_canvas_rect page bbox).h - 10),
           .rotate_canvas 0, .draw_string 0 0 (j + 1), .restore_state]) ∧
    (∀ (page : PdfPage) (rgb : ℕ × ℕ × ℕ) (j : ℕ) (bbox : BBox),
        page.rotate % 360 = 90 →
        number_label_ops page rgb false false j bbox =
          [.set_fill_color ((rgb.1 : ℚ) / 255) ((rgb.2.1 : ℚ) / 255) ((rgb.2.2 : ℚ) / 255) 1,
           .set_font_size 10, .save_state,
           .translate ((cal_canvas_rect page bbox).x + 10)
             ((cal_canvas_rect page bbox).y + (cal_canvas_rect page bbox).h + 2),
           .rotate_canvas 90, .draw_string 0 0 (j + 1), .restore_state]) ∧
    (∀ (page : PdfPage) (rgb : ℕ × ℕ × ℕ) (j : ℕ) (bbox : BBox),
        page.rotate % 360 = 180 →
        number_label_ops page rgb false false j bbox =
          [.set_fill_color ((rgb.1 : ℚ) / 255) ((rgb.2.1 : ℚ) / 255) ((rgb.2.2 : ℚ) / 255) 1,
           .set_font_size 10, .save_state,
           .translate ((cal_canvas_rect page bbox).x - 2)
             ((cal_canvas_rect page bbox).y + 10),
           .rotate_canvas 180, .draw_string 0 0 (j + 1), .restore_state]) ∧
    (∀ (page : PdfPage) (rgb : ℕ × ℕ × ℕ) (j : ℕ) (bbox : BBox),
        page.rotate % 360 = 270 →
        number_label_ops page rgb false false j bbox =
          [.set_fill_color ((rgb.1 : ℚ) / 255) ((rgb.2.1 : ℚ) / 255) ((rgb.2.2 : ℚ) / 255) 1,
           .set_font_size 10, .save_state,
           .translate ((cal_canvas_rect page bbox).x + (cal_canvas_rect page bbox).w - 10)
             ((cal_canvas_rect page bbox).y - 2),
           .rotate_canvas 270, .draw_string 0 0 (j + 1), .restore_state]) := by
  refine ⟨?_, ?_, ?_, ?_, ?_, ?_⟩
  · intro i pdf_info layout page ops h
    cases hb : (page_buckets_list pdf_info)[i]? with
    | none =>
        rw [draw_page_ops_err_buckets i pdf_info layout page hb] at h
        exact absurd h (by simp)
    | some bk =>
        cases hl : layout[i]? with
        | none =>
            rw [draw_page_ops_err_layout i pdf_info layout page bk hb hl] at h
            exact absurd h (by simp)
        | some pl =>
            rw [draw_page_ops_eq i pdf_info layout page bk pl hb hl] at h
            have hops := (Except.ok.injEq _ _).mp h
            exact ⟨draw_rect_ops page bk.dropped (158, 158, 158) true ++
              draw_rect_ops page bk.tables_body (204, 204, 0) true ++
              draw_rect_ops page bk.tables_caption (255, 255, 102) true ++
              draw_rect_ops page bk.tables_footnote (229, 255, 204) true ++
              draw_rect_ops page bk.imgs_body (153, 255, 51) true ++
              draw_rect_ops page bk.imgs_caption (102, 178, 255) true ++
              draw_rect_ops page bk.imgs_footnote (255, 178, 102) true ++
              draw_rect_ops page bk.titles (102, 102, 255) true ++
              draw_rect_ops page bk.texts (153, 0, 76) true ++
              draw_rect_ops page bk.interequations (0, 255, 0) true ++
              draw_rect_ops page bk.lists (40, 169, 92) true ++
              draw_rect_ops page bk.indices (40, 169, 92) true, pl, rfl, hops.symm⟩
  · intro page rgb j bbox
    simp only [number_label_ops]
    split_ifs <;> first | contradiction | simp [CanvasOp.is_rect]
  · intro page rgb j bbox h
    simp [number_label_ops, h]
  · intro page rgb j bbox h
    simp [number_label_ops, h]
  · intro page rgb j bbox h
    simp [number_label_ops, h]
  · intro page rgb j bbox h
    simp [number_label_ops, h]

/-- Witness for C7 amended: the rotation-0 label placement at a concrete
input. -/
theorem reading_order_numbering_witness :
    number_label_ops ⟨100, 100, 0⟩ (255, 0, 0) false false 0 ⟨10, 10, 20, 20⟩ =
      [.set_fill_color 1 0 0 1, .set_font_size 10, .save_state,
       .translate 22 80, .rotate_canvas 0, .draw_string 0 0 1, .restore_state] := by
  have h := reading_order_numbering.2.2.1 ⟨100, 100, 0⟩ (255, 0, 0) 0 ⟨10, 10, 20, 20⟩
    (by decide)
  rw [h, cal_canvas_rect_rot0 _ _ (by decide)]
  norm_num

/-! ### Overlay loop bounds (C10) -/

theorem overlay_go_ok (pdf_info : List Page) (layout : List (List BBox))
    (hlen : layout.length = pdf_info.length) :
    ∀ (pages : List PdfPage) (i : ℕ), i + pages.length ≤ pdf_info.length →
      ∃ l, overlay_go pdf_info layout i pages = .ok l ∧ l.length = pages.length := by
  intro pages
  induction pages with
  | nil => exact fun i _ => ⟨[], rfl, rfl⟩
  | cons p ps ih =>
      intro i hle
      simp only [List.length_cons] at hle
      have hi : i < pdf_info.length := by omega
      obtain ⟨bk, hb⟩ : ∃ bk, (page_buckets_list pdf_info)[i]? = some bk :=
        ⟨_, List.getElem?_eq_getElem (by simpa [page_buckets_list])⟩
      obtain ⟨pl, hl⟩ : ∃ pl, layout[i]? = some pl :=
        ⟨_, List.getElem?_eq_getElem (by omega)⟩
      obtain ⟨ops, hops⟩ : ∃ ops, draw_page_ops i pdf_info layout p = .ok ops :=
        ⟨_, draw_page_ops_eq i pdf_info layout p _ _ hb hl⟩
      obtain ⟨l', hgo, hlen'⟩ := ih (i + 1) (by omega)
      refine ⟨ops :: l', ?_, by simp [hlen']⟩
      rw [overlay_go, hops, hgo]
      rfl

theorem overlay_go_err (pdf_info : List Page) (layout : List (List BBox))
    (hlen : layout.length = pdf_info.length) :
    ∀ (pages : List PdfPage) (i : ℕ), i ≤ pdf_info.length →
      pdf_info.length < i + pages.length →
      overlay_go pdf_info layout i pages = .error .indexError := by
  intro pages
  induction pages with
  | nil => intro i h1 h2; simp at h2; omega
  | cons p ps ih =>
      intro i h1 h2
      simp only [List.length_cons] at h2
      by_cases hi : i < pdf_info.length
      · obtain ⟨bk, hb⟩ : ∃ bk, (page_buckets_list pdf_info)[i]? = some bk :=
          ⟨_, List.getElem?_eq_getElem (by simpa [page_buckets_list])⟩
        obtain ⟨pl, hl⟩ : ∃ pl, layout[i]? = some pl :=
          ⟨_, List.getElem?_eq_getElem (by omega)⟩
        obtain ⟨ops, hops⟩ : ∃ ops, draw_page_ops i pdf_info layout p = .ok ops :=
          ⟨_, draw_page_ops_eq i pdf_info layout p _ _ hb hl⟩
        rw [overlay_go, hops, ih (i + 1) (by omega) (by omega)]
        rfl
      · have hb : (page_buckets_list pdf_info)[i]? = none :=
          List.getElem?_eq_none (by simpa [page_buckets_list] using Nat.le_of_not_lt hi)
        rw [overlay_go, draw_page_ops_err_buckets i pdf_info layout p hb]
        rfl

/-- C10: the primary overlay loop iterates over every PDF page and indexes
the per-page bucket/reading-order lists (one entry per `pdf_info` entry) with
no bounds guard: when the PDF has more pages than `pdf_info` has entries the
primary path itself fails with an out-of-range `IndexError`, and only when
the PDF page count is at most the `pdf_info` length does it complete, with
one overlay per PDF page. -/
theorem overlay_loop_requires_enough_pdf_info (pdf_pages : List PdfPage)
    (pdf_info : List Page) (layout : List (List BBox))
    (hlen : layout.length = pdf_info.length) :
    (pdf_info.length < pdf_pages.length →
      overlay_loop pdf_pages pdf_info layout = .error .indexError) ∧
    (pdf_pages.length ≤ pdf_info.length →
      ∃ l, overlay_loop pdf_pages pdf_info layout = .ok l ∧
        l.length = pdf_pages.length) := by
  constructor
  · intro h
    exact overlay_go_err pdf_info layout hlen pdf_pages 0 (Nat.zero_le _) (by omega)
  · intro h
    exact overlay_go_ok pdf_info layout hlen pdf_pages 0 (by omega)

/-- Witness for C10: a one-page PDF with empty `pdf_info` hits the
`IndexError`, and a one-page PDF with one `pdf_info` entry completes. -/
theorem overlay_loop_requires_enough_pdf_info_witness :
    overlay_loop [⟨100, 100, 0⟩] [] [] = .error .indexError ∧
    ∃ l, overlay_loop [⟨100, 100, 0⟩] [⟨[], [], []⟩] [[]] = .ok l ∧ l.length = 1 :=
  ⟨(overlay_loop_requires_enough_pdf_info [⟨100, 100, 0⟩] [] [] rfl).1 (by norm_num),
   (overlay_loop_requires_enough_pdf_info [⟨100, 100, 0⟩] [⟨[], [], []⟩] [[]] rfl).2
     (by norm_num)⟩

/-! ### End-to-end single-page example (C9) -/

/-- The label of a `drawString` op, if any. -/
def CanvasOp.string_label : CanvasOp → Option ℕ
  | .draw_string _ _ n => some n
  | _ => none

/-- C9's Table block: body, caption, footnote sub-boxes (in that input
order). -/
def c9_table_block : Block :=
  ⟨.table, ⟨10, 20, 60, 80⟩,
    [⟨.table_body, ⟨10, 30, 60, 70⟩, []⟩,
     ⟨.table_caption, ⟨10, 20, 60, 28⟩, []⟩,
     ⟨.table_footnote, ⟨10, 72, 60, 80⟩, []⟩], []⟩

/-- C9's Text block. -/
def c9_text_block : Block := ⟨.text, ⟨10, 85, 60, 95⟩, [], []⟩

/-- C9's single page: one Table block then one Text block. -/
def c9_page : Page := ⟨[], [c9_table_block, c9_text_block], []⟩

/-- C9 counterexample: for the single-page input with one Table block
(body+caption+footnote) and one Text block, the reading-order sequence has
FOUR entries (caption, body, footnote, text), not two — every table sub-part
gets its own numbered entry. -/
theorem single_table_text_reading_order_length :
    page_reading_order c9_page.para_blocks =
      .ok [⟨10, 20, 60, 28⟩, ⟨10, 30, 60, 70⟩, ⟨10, 72, 60, 80⟩, ⟨10, 85, 60, 95⟩] ∧
    ([(⟨10, 20, 60, 28⟩ : BBox), ⟨10, 30, 60, 70⟩, ⟨10, 72, 60, 80⟩,
      ⟨10, 85, 60, 95⟩] : List BBox).length = 4 := by
  exact ⟨rfl, rfl⟩

/-- C9 amended: the overlay's numbered reading-order sequence has length 4 —
the table's sub-parts caption-first among themselves, then the text block,
labels 1 to 4 — and the clean-reconstruction canvas receives exactly 4
pasted regions (table body, caption, footnote, text) with the raw Table
parent bbox's pixel region pasted for none of them. -/
theorem single_table_text_end_to_end :
    page_reading_order c9_page.para_blocks =
      .ok [⟨10, 20, 60, 28⟩, ⟨10, 30, 60, 70⟩, ⟨10, 72, 60, 80⟩, ⟨10, 85, 60, 95⟩] ∧
    (draw_bbox_with_number 0
        [[⟨10, 20, 60, 28⟩, ⟨10, 30, 60, 70⟩, ⟨10, 72, 60, 80⟩, ⟨10, 85, 60, 95⟩]]
        ⟨100, 100, 0⟩ (255, 0, 0) false false).map
        (fun ops => ops.filterMap CanvasOp.string_label) = .ok [1, 2, 3, 4] ∧
    page_pastes (classify_page c9_page) ⟨200, 200⟩ 100 100 =
      [⟨⟨20, 60, 120, 140⟩, (20, 60)⟩, ⟨⟨20, 40, 120, 56⟩, (20, 40)⟩,
       ⟨⟨20, 144, 120, 160⟩, (20, 144)⟩, ⟨⟨20, 170, 120, 190⟩, (20, 170)⟩] ∧
    (page_pastes (classify_page c9_page) ⟨200, 200⟩ 100 100).length = 4 ∧
    pil_box_safe ⟨200, 200⟩ (scale_box c9_table_block.bbox 2 2) ∉
      (page_pastes (classify_page c9_page) ⟨200, 200⟩ 100 100).map Paste.box := by
  have hc : classify_page c9_page =
      { tables := [⟨10, 20, 60, 80⟩], tables_body := [⟨10, 30, 60, 70⟩],
        tables_caption := [⟨10, 20, 60, 28⟩], tables_footnote := [⟨10, 72, 60, 80⟩],
        texts := [⟨10, 85, 60, 95⟩] } := rfl
  have hp : page_pastes (classify_page c9_page) ⟨200, 200⟩ 100 100 =
      [⟨⟨20, 60, 120, 140⟩, (20, 60)⟩, ⟨⟨20, 40, 120, 56⟩, (20, 40)⟩,
       ⟨⟨20, 144, 120, 160⟩, (20, 144)⟩, ⟨⟨20, 170, 120, 190⟩, (20, 170)⟩] := by
    rw [hc]
    norm_num [page_pastes, all_bboxes_for_page, paste_of, scale_box,
      pil_box_safe, List.filterMap_cons]
  have hb : pil_box_safe ⟨200, 200⟩ (scale_box c9_table_block.bbox 2 2) =
      ⟨20, 40, 120, 160⟩ := by
    norm_num [pil_box_safe, scale_box, c9_table_block]
  refine ⟨rfl, rfl, hp, by rw [hp]; rfl, ?_⟩
  rw [hp, hb]
  norm_num [Paste.mk.injEq, BBox.mk.injEq]

/-! ### Span extractor: closed forms (C4) -/

/-- Generic decomposition for accumulator-appending folds on a pair of
lists. -/
theorem foldl_pair_decomp {α : Type}
    (step : (List BBox × List BBox) → α → (List BBox × List BBox))
    (hstep : ∀ (o c : List BBox) (x : α),
      step (o, c) x = (o ++ (step ([], []) x).1, c ++ (step ([], []) x).2)) :
    ∀ (l : List α) (o c : List BBox),
      l.foldl step (o, c) =
        (o ++ (l.foldl step ([], [])).1, c ++ (l.foldl step ([], [])).2) := by
  intro l
  induction l with
  | nil => intro o c; simp
  | cons x xs ih =>
      intro o c
      rcases hx : step ([], []) x with ⟨a1, a2⟩
      rw [List.foldl_cons, List.foldl_cons, hstep o c x, hx, ih (o ++ a1) (c ++ a2),
        ih a1 a2]
      simp [List.append_assoc]

theorem span_step_decomp (o c : List BBox) (x : Span) :
    span_step (o, c) x = (o ++ (span_step ([], []) x).1, c ++ (span_step ([], []) x).2) := by
  unfold span_step
  split_ifs <;> simp

theorem spans_foldl_decomp (spans : List Span) (o c : List BBox) :
    spans.foldl span_step (o, c) =
      (o ++ (spans.foldl span_step ([], [])).1, c ++ (spans.foldl span_step ([], [])).2) :=
  foldl_pair_decomp span_step span_step_decomp spans o c

theorem lines_scan_decomp (lines : List Line) (o c : List BBox) :
    lines_scan (o, c) lines =
      (o ++ (lines_scan ([], []) lines).1, c ++ (lines_scan ([], []) lines).2) := by
  unfold lines_scan
  exact foldl_pair_decomp (fun a line => line.spans.foldl span_step a)
    (fun o' c' line => spans_foldl_decomp line.spans o' c') lines o c

theorem subs_foldl_decomp (subs : List SubBlock) (o c : List BBox) :
    subs.foldl (fun a2 sub => lines_scan a2 sub.lines) (o, c) =
      (o ++ (subs.foldl (fun a2 sub => lines_scan a2 sub.lines) ([], [])).1,
       c ++ (subs.foldl (fun a2 sub => lines_scan a2 sub.lines) ([], [])).2) :=
  foldl_pair_decomp (fun a2 sub => lines_scan a2 sub.lines)
    (fun o' c' sub => lines_scan_decomp sub.lines o' c') subs o c

theorem block_scan_step_decomp (o c : List BBox) (block : Block) :
    block_scan_step (o, c) block =
      (o ++ (block_scan_step ([], []) block).1, c ++ (block_scan_step ([], []) block).2) := by
  unfold block_scan_step
  by_cases h1 : is_text_like block.type
  · simp only [h1, if_true]
    exact lines_scan_decomp block.lines o c
  · by_cases h2 : block.type = .image ∨ block.type = .table
    · simp only [h1, Bool.false_eq_true, if_false, h2, if_true]
      exact subs_foldl_decomp block.blocks o c
    · simp [h1, h2]

theorem page_span_scan_from_decomp (page : Page) (o c : List BBox) :
    page_span_scan_from (o, c) page =
      (o ++ (page_span_scan page).1, c ++ (page_span_scan page).2) := by
  unfold page_span_scan page_span_scan_from
  exact foldl_pair_decomp block_scan_step block_scan_step_decomp page.preproc_blocks o c

/-- The Text-typed, non-`cross_page` span bboxes of a span list, in order. -/
def own_of (spans : List Span) : List BBox :=
  ((spans.filter (fun s => s.type = .text)).filter
    (fun s => !s.cross_page)).map (fun s => s.bbox)

/-- The Text-typed `cross_page` span bboxes of a span list, in order. -/
def cross_of (spans : List Span) : List BBox :=
  ((spans.filter (fun s => s.type = .text)).filter
    (fun s => s.cross_page)).map (fun s => s.bbox)

/-- The spans the scan visits inside one block, in scan order. -/
def block_spans (block : Block) : List Span :=
  if is_text_like block.type then block.lines.flatMap (fun l => l.spans)
  else if block.type = .image ∨ block.type = .table then
    block.blocks.flatMap (fun sub => sub.lines.flatMap (fun l => l.spans))
  else []

/-- All spans the scan of `draw_span_bbox` visits on one page, in scan
order. -/
def page_all_spans (page : Page) : List Span :=
  page.preproc_blocks.flatMap block_spans

theorem own_of_append (a b : List Span) : own_of (a ++ b) = own_of a ++ own_of b := by
  simp [own_of, List.filter_append]

theorem cross_of_append (a b : List Span) : cross_of (a ++ b) = cross_of a ++ cross_of b := by
  simp [cross_of, List.filter_append]

theorem spans_foldl_closed (spans : List Span) :
    spans.foldl span_step ([], []) = (own_of spans, cross_of spans) := by
  induction spans with
  | nil => rfl
  | cons s ss ih =>
      rw [List.foldl_cons, spans_foldl_decomp ss, ih]
      by_cases ht : s.type = .text
      · by_cases hc : s.cross_page
        · simp [span_step, own_of, cross_of, ht, hc]
        · simp [span_step, own_of, cross_of, ht, hc]
      · simp [span_step, own_of, cross_of, ht]

theorem lines_scan_closed (lines : List Line) :
    lines_scan ([], []) lines =
      (own_of (lines.flatMap (fun l => l.spans)),
       cross_of (lines.flatMap (fun l => l.spans))) := by
  induction lines with
  | nil => rfl
  | cons l ls ih =>
      show ls.foldl (fun a line => line.spans.foldl span_step a)
        (l.spans.foldl span_step ([], [])) = _
      rw [spans_foldl_closed,
        show (ls.foldl (fun a line => line.spans.foldl span_step a)
          (own_of l.spans, cross_of l.spans)) =
          lines_scan (own_of l.spans, cross_of l.spans) ls from rfl,
        lines_scan_decomp, ih, List.flatMap_cons, own_of_append, cross_of_append]

theorem subs_foldl_closed (subs : List SubBlock) :
    subs.foldl (fun a2 sub => lines_scan a2 sub.lines) ([], []) =
      (own_of (subs.flatMap (fun sub => sub.lines.flatMap (fun l => l.spans))),
       cross_of (subs.flatMap (fun sub => sub.lines.flatMap (fun l => l.spans)))) := by
  induction subs with
  | nil => rfl
  | cons sub subs ih =>
      rw [List.foldl_cons]
      show subs.foldl (fun a2 sub => lines_scan a2 sub.lines)
        (lines_scan ([], []) sub.lines) = _
      rw [lines_scan_closed, subs_foldl_decomp, ih, List.flatMap_cons,
        own_of_append, cross_of_append]

theorem block_scan_step_closed (block : Block) :
    block_scan_step ([], []) block =
      (own_of (block_spans block), cross_of (block_spans block)) := by
  unfold block_scan_step block_spans
  by_cases h1 : is_text_like block.type
  · simp only [h1, if_true]
    exact lines_scan_closed block.lines
  · by_cases h2 : block.type = .image ∨ block.type = .table
    · simp only [h1, Bool.false_eq_true, if_false, h2, if_true]
      exact subs_foldl_closed block.blocks
    · simp [h1, h2, own_of, cross_of]

theorem page_span_scan_closed (page : Page) :
    page_span_scan page =
      (own_of (page_all_spans page), cross_of (page_all_spans page)) := by
  unfold page_span_scan page_span_scan_from page_all_spans
  induction page.preproc_blocks with
  | nil => rfl
  | cons block rest ih =>
      rw [List.foldl_cons, List.flatMap_cons, own_of_append, cross_of_append,
        block_scan_step_closed,
        foldl_pair_decomp block_scan_step block_scan_step_decomp rest _ _, ih]

theorem last_span_go_cons (page : Page) (rest : List Page) (carry : List BBox) :
    last_span_go (page :: rest) carry =
      (carry ++ own_of (page_all_spans page)).getLast? ::
        last_span_go rest (cross_of (page_all_spans page)) := by
  show (page_span_scan_from (carry, []) page).1.getLast? ::
      last_span_go rest (page_span_scan_from (carry, []) page).2 = _
  rw [page_span_scan_from_decomp, page_span_scan_closed]
  simp

theorem last_span_go_length : ∀ (pages : List Page) (carry : List BBox),
    (last_span_go pages carry).length = pages.length := by
  intro pages
  induction pages with
  | nil => intro carry; rfl
  | cons page rest ih =>
      intro carry
      rw [last_span_go]
      simp [ih]

/-- C4: a Text span flagged `cross_page` on page N is excluded from page N's
own candidate collection and prepended (before any of page N+1's own spans)
to page N+1's collection; each page's recorded target is the last element of
the continuation-prefixed collection, so page N+1's own last span wins
whenever page N+1 has own spans; a page whose prefixed collection is empty is
recorded as `none` — one entry per page, never an error. -/
theorem span_cross_page_carry :
    (∀ (page : Page) (rest : List Page) (carry : List BBox),
        last_span_go (page :: rest) carry =
          (carry ++ own_of (page_all_spans page)).getLast? ::
            last_span_go rest (cross_of (page_all_spans page))) ∧
    (∀ (carry own : List BBox), own ≠ [] →
        (carry ++ own).getLast? = own.getLast?) ∧
    (∀ (pdf_info : List Page),
        (last_span_bboxes pdf_info).length = pdf_info.length) ∧
    (∀ (p1 p2 : Page) (rest : List Page),
        last_span_bboxes (p1 :: p2 :: rest) =
          (own_of (page_all_spans p1)).getLast? ::
          (cross_of (page_all_spans p1) ++ own_of (page_all_spans p2)).getLast? ::
            last_span_go rest (cross_of (page_all_spans p2))) ∧
    (∀ (page : Page) (rest : List Page) (carry : List BBox),
        carry = [] → own_of (page_all_spans page) = [] →
        last_span_go (page :: rest) carry =
          none :: last_span_go rest (cross_of (page_all_spans page))) := by
  refine ⟨last_span_go_cons, ?_, fun info => last_span_go_length info [], ?_, ?_⟩
  · intro carry own h
    rw [List.getLast?_append]
    cases hl : own.getLast? with
    | none => exact absurd (by simpa using hl) h
    | some a => rfl
  · intro p1 p2 rest
    unfold last_span_bboxes
    rw [last_span_go_cons, last_span_go_cons]
    simp
  · intro page rest carry h1 h2
    rw [last_span_go_cons, h1, h2]
    rfl

/-- C4 witness page 1: one text block whose only span is Text and
`cross_page`. -/
def c4_p1 : Page :=
  ⟨[], [], [⟨.text, ⟨0, 0, 9, 9⟩, [], [⟨[⟨.text, ⟨1, 8, 6, 9⟩, true⟩]⟩]⟩]⟩

/-- C4 witness page 2: one text block with one own (non-cross) Text span. -/
def c4_p2 : Page :=
  ⟨[], [], [⟨.text, ⟨0, 0, 9, 9⟩, [], [⟨[⟨.text, ⟨5, 5, 6, 6⟩, false⟩]⟩]⟩]⟩

/-- C4 witness page 3: no spans at all. -/
def c4_p3 : Page := ⟨[], [], []⟩

/-- Witness for C4: page 1's only span is cross-page, so page 1 records
`none` and the span is carried to page 2; page 2's own span wins; page 3 is
empty and records `none` without error. -/
theorem span_cross_page_carry_witness :
    last_span_bboxes [c4_p1, c4_p2, c4_p3] =
      [none, some ⟨5, 5, 6, 6⟩, none] := by
  have h := span_cross_page_carry.2.2.2.1 c4_p1 c4_p2 [c4_p3]
  rw [h]
  rfl

/-! ### Best-effort isolation of the optional raster stages (C8) -/

theorem except_bind_ok {α β : Type} (a : α) (f : α → Except PyErr β) :
    (Except.ok a >>= f) = f a := rfl

theorem except_bind_error {α β : Type} (e : PyErr) (f : α → Except PyErr β) :
    ((Except.error e : Except PyErr α) >>= f) = .error e := rfl

theorem clean_output_error (pdf_info : List Page) (rp : List PdfPage)
    (save : Except PyErr Unit) (e : PyErr) :
    clean_output pdf_info (.error e) rp save = none := rfl

theorem clean_output_ok (pdf_info : List Page) (rp : List PdfPage)
    (save : Except PyErr Unit) (images : List Img) :
    clean_output pdf_info (.ok images) rp save =
      match clean_go images rp 0 pdf_info with
      | .error _ => none
      | .ok cleaned =>
        if cleaned.isEmpty then some cleaned
        else match save with
          | .error _ => none
          | .ok _ => some cleaned := by
  unfold clean_output clean_pipeline
  simp only [except_bind_ok]
  cases hgo : clean_go images rp 0 pdf_info with
  | error e => rfl
  | ok cleaned =>
      simp only [except_bind_ok]
      cases hie : cleaned.isEmpty with
      | true => rfl
      | false => cases save <;> rfl

/-- C8: the clean-reconstruction stage and the span extractor's raster stage
are wrapped best-effort: the primary overlay output does not depend on the
rasterization or save outcomes; a rasterization failure, a per-page loop
failure (e.g. a reader page missing), or a save failure each make the
optional output `none` without anything propagating; a page index at or
beyond the rasterized image count only skips that page's optional
processing; the span extractor's pure first loop is likewise unaffected by
raster failures, which only suppress its optional image output. -/
theorem best_effort_isolation :
    (∀ (pdf_info : List Page) (reader_pages : List PdfPage)
        (conv conv' : Except PyErr (List Img)) (save save' : Except PyErr Unit),
        (draw_layout_bbox_model pdf_info conv reader_pages save).2 =
          (draw_layout_bbox_model pdf_info conv' reader_pages save').2) ∧
    (∀ (pdf_info : List Page) (reader_pages : List PdfPage)
        (save : Except PyErr Unit) (e : PyErr),
        clean_output pdf_info (.error e) reader_pages save = none) ∧
    (∀ (pdf_info : List Page) (reader_pages : List PdfPage)
        (images : List Img) (save : Except PyErr Unit) (e : PyErr),
        clean_go images reader_pages 0 pdf_info = .error e →
        clean_output pdf_info (.ok images) reader_pages save = none) ∧
    (∀ (pdf_info : List Page) (reader_pages : List PdfPage)
        (images : List Img) (cleaned : List (List Paste)) (e : PyErr),
        clean_go images reader_pages 0 pdf_info = .ok cleaned → cleaned ≠ [] →
        clean_output pdf_info (.ok images) reader_pages (.error e) = none) ∧
    (∀ (images : List Img) (reader_pages : List PdfPage) (k : ℕ)
        (info : List Page), images.length ≤ k →
        clean_go images reader_pages k info = .ok []) ∧
    (∀ (pdf_info : List Page) (reader_pages : List PdfPage)
        (conv conv' : Except PyErr (List Img)),
        (draw_span_bbox_model pdf_info conv reader_pages).1 =
          (draw_span_bbox_model pdf_info conv' reader_pages).1) ∧
    (∀ (pdf_info : List Page) (reader_pages : List PdfPage) (e : PyErr),
        (draw_span_bbox_model pdf_info (.error e) reader_pages).2 = none) := by
  refine ⟨?_, ?_, ?_, ?_, ?_, ?_, ?_⟩
  · intro pdf_info rp conv conv' save save'
    cases h : layout_bbox_list pdf_info <;>
      simp [draw_layout_bbox_model, h]
  · intro pdf_info rp save e
    exact clean_output_error pdf_info rp save e
  · intro pdf_info rp images save e hgo
    rw [clean_output_ok, hgo]
  · intro pdf_info rp images cleaned e hgo hne
    rw [clean_output_ok, hgo]
    simp [List.isEmpty_iff, hne]
  · intro images rp k info hk
    induction info generalizing k with
    | nil => rfl
    | cons page rest ih =>
        rw [clean_go, if_pos hk]
        exact ih (k + 1) (by omega)
  · intro pdf_info rp conv conv'
    rfl
  · intro pdf_info rp e
    rfl

/-- Witness for C8 at concrete inputs: a failing rasterization yields no
clean output while the overlay result is the same as with a successful
rasterization; a failing per-page loop is likewise swallowed. -/
theorem best_effort_isolation_witness :
    (draw_layout_bbox_model [] (.error .indexError) [] (.ok ())).2 =
      (draw_layout_bbox_model [] (.ok []) [] (.ok ())).2 ∧
    clean_output [⟨[], [], []⟩] (.error .keyError) [] (.ok ()) = none ∧
    clean_go [] [] 2 [⟨[], [], []⟩] = .ok [] :=
  ⟨best_effort_isolation.1 [] [] (.error .indexError) (.ok []) (.ok ()) (.ok ()),
   best_effort_isolation.2.1 [⟨[], [], []⟩] [] (.ok ()) .keyError,
   best_effort_isolation.2.2.2.2.1 [] [] 2 [⟨[], [], []⟩] (by simp)⟩

end DrawBBox